import Mathlib

/-!
Shallow embedding of `src/gui/scripts/dummy-prompt.py` and proofs about its
observable behaviour.

The script is, after its two module imports (`time`, `sys`), line by line:

    print("Working...", flush=True)
    time.sleep(1)
    print("Do you want to proceed? [y/n] ", end="", flush=True)
    try:
        if sys.version_info[0] < 3:
            raw_input()
        else:
            input()
    except EOFError:
        pass

We model an execution as the list of observable events it performs (flushed
writes to standard output, the blocking sleep, the blocking read of standard
input) together with its outcome (normal exit with a code, or abrupt
termination by an uncaught exception).  Standard input is modelled as the
list of characters the stream delivers before it closes.  To reason about
the script's error handling we let the environment inject an exception at
each of the four effectful steps; the nominal execution injects none.
-/

namespace DummyPrompt

/-- A Python exception, as far as this script can observe one: `EOFError`
(the only exception the script catches) or any other exception, identified
by its name. -/
inductive PyExc
  | eofError
  | other (name : String)
deriving DecidableEq, Repr

/-- One observable event of the script: a write of a string to standard
output (with the `flush` argument that the source passes to `print`), a
blocking sleep of the given number of seconds, or the blocking read of one
line from standard input. -/
inductive Event
  | write (s : String) (flushed : Bool)
  | sleepSec (n : Nat)
  | readStdin
deriving DecidableEq, Repr

/-- How the process terminates: a normal exit with a code, or abrupt
termination by an uncaught exception. -/
inductive Outcome
  | exited (code : Nat)
  | uncaught (e : PyExc)
deriving DecidableEq, Repr

/-- What `print("Working...", flush=True)` writes: `print` appends a
newline. -/
def workingMsg : String := "Working...\n"

/-- What `print("Do you want to proceed? [y/n] ", end="", flush=True)`
writes: `end=""` suppresses the newline. -/
def promptMsg : String := "Do you want to proceed? [y/n] "

/-- Split a character stream at the first newline: the line before it and
the characters after it (the newline itself is consumed).  A stream with no
newline is one whole partial line. -/
def splitLine : List Char → List Char × List Char
  | [] => ([], [])
  | c :: rest =>
      if c = '\n' then ([], rest)
      else
        let p := splitLine rest
        (c :: p.1, p.2)

/-- Python 3 builtin `input()` reading from a stream that delivers `stdin`
and then closes: if the stream closes before any character arrives it
raises `EOFError`; otherwise it returns the first line (without its
newline) and leaves the rest of the stream unconsumed.  A partial line cut
off by end-of-stream is returned as a line. -/
def pyInput (stdin : List Char) : Except PyExc (List Char × List Char) :=
  match stdin with
  | [] => Except.error PyExc.eofError
  | c :: rest => Except.ok (splitLine (c :: rest))

/-- Python 2 builtin `raw_input()` on the same stream model: it reads one
line, raising `EOFError` exactly when the stream closes with no data. -/
def pyRawInput (stdin : List Char) : Except PyExc (List Char × List Char) :=
  match stdin with
  | [] => Except.error PyExc.eofError
  | c :: rest => Except.ok (splitLine (c :: rest))

/-- The source's version-conditional read:
`if sys.version_info[0] < 3: raw_input() else: input()`. -/
def readBranch (versionMajor : Nat) (stdin : List Char) :
    Except PyExc (List Char × List Char) :=
  if versionMajor < 3 then pyRawInput stdin else pyInput stdin

/-- Modelled from the spec: the single, unconditional "read one line and
discard it" operation that section 9 of the spec says the version branch
collapses to — block for one line, return it (content to be discarded by
the caller), and signal end-of-stream exactly when the stream closes with
no line available. -/
def readOneLine (stdin : List Char) : Except PyExc (List Char × List Char) :=
  match stdin with
  | [] => Except.error PyExc.eofError
  | c :: rest => Except.ok (splitLine (c :: rest))

/-- The environment of one execution: what standard input delivers before
closing, and an optional exception injected at each of the four effectful
steps (first print, sleep, second print, read).  `none` everywhere is the
nominal execution. -/
structure Env where
  stdin : List Char
  printWorkingExc : Option PyExc
  sleepExc : Option PyExc
  printPromptExc : Option PyExc
  readExc : Option PyExc
deriving Repr

/-- The result of one execution: the events performed, the outcome, and the
part of standard input left unconsumed. -/
structure RunResult where
  events : List Event
  outcome : Outcome
  stdinLeft : List Char
deriving DecidableEq, Repr

/-- The complete event trace of an execution that runs to the read. -/
def fullTrace : List Event :=
  [Event.write workingMsg true, Event.sleepSec 1,
   Event.write promptMsg true, Event.readStdin]

/-- The whole script.  Control flow mirrors the source: the two prints and
the sleep run in order, each aborting the process if its injected exception
fires; the read sits in `try ... except EOFError: pass`, so an `EOFError`
raised there (injected, or the natural one from `readBranch` on an empty
stream) is swallowed and every other exception escapes.  Falling off the
end of the script is a normal exit with code 0. -/
def run : Nat → Env → RunResult
  | _, ⟨s, some e, _, _, _⟩ => ⟨[], Outcome.uncaught e, s⟩
  | _, ⟨s, none, some e, _, _⟩ =>
      ⟨[Event.write workingMsg true], Outcome.uncaught e, s⟩
  | _, ⟨s, none, none, some e, _⟩ =>
      ⟨[Event.write workingMsg true, Event.sleepSec 1], Outcome.uncaught e, s⟩
  | _, ⟨s, none, none, none, some PyExc.eofError⟩ =>
      ⟨fullTrace, Outcome.exited 0, s⟩
  | _, ⟨s, none, none, none, some e⟩ => ⟨fullTrace, Outcome.uncaught e, s⟩
  | v, ⟨s, none, none, none, none⟩ =>
      match readBranch v s with
      | Except.error _ => ⟨fullTrace, Outcome.exited 0, s⟩
      | Except.ok p => ⟨fullTrace, Outcome.exited 0, p.2⟩

/-- The nominal execution: standard input delivers `stdin` and then closes,
and no exception is injected. -/
def runStdin (versionMajor : Nat) (stdin : List Char) : RunResult :=
  run versionMajor ⟨stdin, none, none, none, none⟩

/-- The standard-output content of a trace: the concatenation of its
writes. -/
def stdoutOf (events : List Event) : String :=
  events.foldl
    (fun acc e =>
      match e with
      | Event.write s _ => acc ++ s
      | _ => acc) ""

/-- The standard-output content of an execution. -/
def stdout (r : RunResult) : String := stdoutOf r.events

/-! ### Helper lemmas -/

lemma pyRawInput_eq_pyInput (s : List Char) : pyRawInput s = pyInput s := by
  cases s <;> rfl

lemma readBranch_eq_pyInput (v : Nat) (s : List Char) :
    readBranch v s = pyInput s := by
  unfold readBranch
  by_cases hv : v < 3 <;> simp [hv, pyRawInput_eq_pyInput]

lemma splitLine_no_newline (s : List Char) (h : '\n' ∉ s) :
    splitLine s = (s, []) := by
  induction s with
  | nil => rfl
  | cons c t ih =>
      by_cases hc : c = '\n'
      · subst hc
        exact absurd (List.mem_cons_self _ _) h
      · have ht : '\n' ∉ t := fun m => h (List.mem_cons_of_mem c m)
        simp [splitLine, hc, ih ht]

lemma splitLine_first_line (line rest : List Char) (h : '\n' ∉ line) :
    splitLine (line ++ '\n' :: rest) = (line, rest) := by
  induction line with
  | nil => simp [splitLine]
  | cons c t ih =>
      by_cases hc : c = '\n'
      · subst hc
        exact absurd (List.mem_cons_self _ _) h
      · have ht : '\n' ∉ t := fun m => h (List.mem_cons_of_mem c m)
        simp [splitLine, hc, ih ht]

lemma pyInput_ne_nil (s : List Char) (h : s ≠ []) :
    pyInput s = Except.ok (splitLine s) := by
  cases s with
  | nil => exact absurd rfl h
  | cons c t => rfl

lemma run_events_cases (v : Nat) (env : Env) :
    (run v env).events = [] ∨
    (run v env).events = [Event.write workingMsg true] ∨
    (run v env).events = [Event.write workingMsg true, Event.sleepSec 1] ∨
    (run v env).events = fullTrace := by
  obtain ⟨s, w1, sl, w2, rd⟩ := env
  rcases w1 with _ | e1
  · rcases sl with _ | e2
    · rcases w2 with _ | e3
      · rcases rd with _ | e4
        · cases hr : readBranch v s <;> simp [run, hr]
        · cases e4 <;> simp [run]
      · simp [run]
    · simp [run]
  · simp [run]

lemma runStdin_events (v : Nat) (s : List Char) :
    (runStdin v s).events = fullTrace := by
  unfold runStdin
  cases hr : readBranch v s <;> simp [run, hr]

lemma runStdin_outcome (v : Nat) (s : List Char) :
    (runStdin v s).outcome = Outcome.exited 0 := by
  unfold runStdin
  cases hr : readBranch v s <;> simp [run, hr]

lemma runStdin_stdinLeft (v : Nat) (s : List Char)
    (p : List Char × List Char) (h : readBranch v s = Except.ok p) :
    (runStdin v s).stdinLeft = p.2 := by
  unfold runStdin
  simp [run, h]

lemma stdoutOf_fullTrace :
    stdoutOf fullTrace = "Working...\nDo you want to proceed? [y/n] " := rfl

lemma stdout_runStdin (v : Nat) (s : List Char) :
    stdout (runStdin v s) = "Working...\nDo you want to proceed? [y/n] " := by
  unfold stdout
  rw [runStdin_events]
  exact stdoutOf_fullTrace

/-! ### Claim theorems -/

/-- Claim C1: for every execution in which standard input supplies one line,
the entire standard-output content is exactly `Working...` followed by a
newline followed by `Do you want to proceed? [y/n] ` (trailing space, no
trailing newline), and the process exits with code 0.  Proved for every
runtime major version and every line content. -/
theorem stdin_one_line_scenario (v : Nat) (line : List Char) :
    stdout (runStdin v (line ++ ['\n'])) =
        "Working...\nDo you want to proceed? [y/n] " ∧
    (runStdin v (line ++ ['\n'])).outcome = Outcome.exited 0 :=
  ⟨stdout_runStdin v _, runStdin_outcome v _⟩

/-- Claim C2: when standard input is closed before any data arrives, the
read raises end-of-stream, yet the process exits with code 0 and its
standard output is exactly the two prompts, with no error message. -/
theorem closed_stream_tolerance (v : Nat) :
    readBranch v [] = Except.error PyExc.eofError ∧
    stdout (runStdin v []) = "Working...\nDo you want to proceed? [y/n] " ∧
    (runStdin v []).outcome = Outcome.exited 0 :=
  ⟨by rw [readBranch_eq_pyInput]; rfl, stdout_runStdin v _, runStdin_outcome v _⟩

/-- Claim C3: in every execution (exceptions injected anywhere or not), the
event trace is a prefix of `[write Working, sleep 1, write prompt, read]`;
in particular the `Working...` write strictly precedes the prompt write,
the prompt write happens only after the one-second sleep has completed, and
the read of standard input happens only after the prompt write. -/
theorem trace_ordering (v : Nat) (env : Env) :
    (∃ t, (run v env).events ++ t = fullTrace) ∧
    (Event.write promptMsg true ∈ (run v env).events →
      (run v env).events.take 3 =
        [Event.write workingMsg true, Event.sleepSec 1,
         Event.write promptMsg true]) ∧
    (Event.readStdin ∈ (run v env).events →
      (run v env).events = fullTrace) := by
  rcases run_events_cases v env with h | h | h | h <;> rw [h]
  · exact ⟨⟨fullTrace, rfl⟩, by decide, by decide⟩
  · exact ⟨⟨[Event.sleepSec 1, Event.write promptMsg true, Event.readStdin],
      rfl⟩, by decide, by decide⟩
  · exact ⟨⟨[Event.write promptMsg true, Event.readStdin], rfl⟩,
      by decide, by decide⟩
  · exact ⟨⟨[], rfl⟩, by decide, by decide⟩

/-- Claim C4: answer-independence.  For any two input lines, the two
nominal executions have identical standard output, identical event traces,
and both exit with code 0: the content of the line is never inspected,
branched on, or echoed. -/
theorem answer_independence (v : Nat) (l1 l2 : List Char) :
    stdout (runStdin v (l1 ++ ['\n'])) = stdout (runStdin v (l2 ++ ['\n'])) ∧
    (runStdin v (l1 ++ ['\n'])).events = (runStdin v (l2 ++ ['\n'])).events ∧
    (runStdin v (l1 ++ ['\n'])).outcome = Outcome.exited 0 ∧
    (runStdin v (l2 ++ ['\n'])).outcome = Outcome.exited 0 := by
  refine ⟨?_, ?_, runStdin_outcome v _, runStdin_outcome v _⟩
  · rw [stdout_runStdin, stdout_runStdin]
  · rw [runStdin_events, runStdin_events]

/-- Claim C5: end-of-stream on the read is the only condition the script
handles.  The process exits 0 exactly when no step raised an exception
except possibly `EOFError` on the read; in every other case it terminates
abruptly with the very exception that was raised, unrecovered. -/
theorem only_eof_is_handled (v : Nat) (env : Env) :
    ((run v env).outcome = Outcome.exited 0 ↔
      env.printWorkingExc = none ∧ env.sleepExc = none ∧
        env.printPromptExc = none ∧
        (env.readExc = none ∨ env.readExc = some PyExc.eofError)) ∧
    ((run v env).outcome = Outcome.exited 0 ∨
      ∃ e, (run v env).outcome = Outcome.uncaught e ∧
        (env.printWorkingExc = some e ∨ env.sleepExc = some e ∨
         env.printPromptExc = some e ∨ env.readExc = some e)) := by
  obtain ⟨s, w1, sl, w2, rd⟩ := env
  rcases w1 with _ | e1
  · rcases sl with _ | e2
    · rcases w2 with _ | e3
      · rcases rd with _ | e4
        · cases hr : readBranch v s <;> simp [run, hr]
        · cases e4 <;> simp [run]
      · simp [run]
    · simp [run]
  · simp [run]

/-- Claim C6: whenever the prompt write happens, the first three events of
the execution are exactly the `Working...` write, a blocking one-second
sleep, and the prompt write: between the two standard-output writes the
process does nothing but sleep one second, so the interval between them is
at least one second of wall-clock time. -/
theorem sleep_between_writes (v : Nat) (env : Env)
    (h : Event.write promptMsg true ∈ (run v env).events) :
    (run v env).events.take 3 =
      [Event.write workingMsg true, Event.sleepSec 1,
       Event.write promptMsg true] := by
  rcases run_events_cases v env with h2 | h2 | h2 | h2 <;> rw [h2] at h ⊢
  · exact absurd h (by decide)
  · exact absurd h (by decide)
  · exact absurd h (by decide)
  · decide

/-- Witness for C6 at a concrete execution (version 3, stdin "y\n"). -/
theorem sleep_between_writes_witness :
    (run 3 ⟨['y', '\n'], none, none, none, none⟩).events.take 3 =
      [Event.write workingMsg true, Event.sleepSec 1,
       Event.write promptMsg true] :=
  sleep_between_writes 3 ⟨['y', '\n'], none, none, none, none⟩ (by decide)

/-- Claim C7: the version-conditional read branch collapses to one
unconditional read-one-line operation.  `raw_input` and `input` agree on
every stream, the branch equals the spec's single operation for every
version, and both raise end-of-stream exactly when the stream closes with
no data. -/
theorem version_branch_collapse (v : Nat) (s : List Char) :
    pyRawInput s = pyInput s ∧
    readBranch v s = readOneLine s ∧
    (readBranch v s = Except.error PyExc.eofError ↔ s = []) := by
  refine ⟨pyRawInput_eq_pyInput s, ?_, ?_⟩
  · rw [readBranch_eq_pyInput]
    cases s <;> rfl
  · rw [readBranch_eq_pyInput]
    cases s with
    | nil => simp [pyInput]
    | cons c t => simp [pyInput]

/-- Claim C8: both writes carry `flush=True` (every write event in every
execution is flushed), the `Working...` write ends with a newline, the
prompt write ends with a space and no newline, and by the time the read
happens both flushed writes have already been performed. -/
theorem flushed_writes (v : Nat) (env : Env) :
    (∀ s b, Event.write s b ∈ (run v env).events → b = true) ∧
    workingMsg.data.getLast? = some '\n' ∧
    promptMsg.data.getLast? = some ' ' ∧
    (Event.readStdin ∈ (run v env).events →
      Event.write workingMsg true ∈ (run v env).events ∧
      Event.write promptMsg true ∈ (run v env).events) := by
  refine ⟨?_, rfl, rfl, ?_⟩
  · intro s b hm
    rcases run_events_cases v env with h | h | h | h <;> rw [h] at hm <;>
      simp [fullTrace] at hm <;> tauto
  · intro hm
    rcases run_events_cases v env with h | h | h | h <;> rw [h] at hm ⊢
    · exact absurd hm (by decide)
    · exact absurd hm (by decide)
    · exact absurd hm (by decide)
    · exact ⟨by decide, by decide⟩

/-- Claim C9: every execution performs at most one read event; in the
nominal execution on `line ++ "\n" ++ rest` the data after the first
newline is left unconsumed, and output and exit code are the same as with
`rest` absent. -/
theorem single_read (v : Nat) (line rest : List Char) (h : '\n' ∉ line) :
    (∀ env : Env, (run v env).events.count Event.readStdin ≤ 1) ∧
    (runStdin v (line ++ '\n' :: rest)).stdinLeft = rest ∧
    stdout (runStdin v (line ++ '\n' :: rest)) =
      stdout (runStdin v (line ++ ['\n'])) ∧
    (runStdin v (line ++ '\n' :: rest)).outcome = Outcome.exited 0 := by
  refine ⟨?_, ?_, ?_, runStdin_outcome v _⟩
  · intro env
    rcases run_events_cases v env with h2 | h2 | h2 | h2 <;> rw [h2] <;> decide
  · have hne : line ++ '\n' :: rest ≠ [] := by cases line <;> simp
    have hb : readBranch v (line ++ '\n' :: rest) = Except.ok (line, rest) := by
      rw [readBranch_eq_pyInput, pyInput_ne_nil _ hne,
        splitLine_first_line _ _ h]
    exact runStdin_stdinLeft v _ (line, rest) hb
  · rw [stdout_runStdin, stdout_runStdin]

/-- Witness for C9 at a concrete input (line "y", leftover "z"). -/
theorem single_read_witness :
    (runStdin 3 (['y'] ++ '\n' :: ['z'])).stdinLeft = ['z'] :=
  (single_read 3 ['y'] ['z'] (by decide)).2.1

/-- Claim C10: a partial line cut off by end-of-stream (nonempty stream,
no newline) is returned as a line rather than raising end-of-stream, so
the execution still exits 0 with the same standard output. -/
theorem partial_line_eof (v : Nat) (s : List Char) (h1 : s ≠ [])
    (h2 : '\n' ∉ s) :
    readBranch v s = Except.ok (s, []) ∧
    (runStdin v s).outcome = Outcome.exited 0 ∧
    stdout (runStdin v s) = "Working...\nDo you want to proceed? [y/n] " := by
  refine ⟨?_, runStdin_outcome v _, stdout_runStdin v _⟩
  rw [readBranch_eq_pyInput, pyInput_ne_nil _ h1, splitLine_no_newline _ h2]

/-- Witness for C10 at the concrete stream "y" (closed with no newline). -/
theorem partial_line_eof_witness :
    readBranch 3 ['y'] = Except.ok (['y'], []) :=
  (partial_line_eof 3 ['y'] (by decide) (by decide)).1

end DummyPrompt
